import Mathlib

/-!
# Verification of the autoconda resolver and dispatcher

A shallow embedding of `src/autoconda/environment.py`, `src/autoconda/conda.py`
and the `run` command of `src/autoconda/cli.py`.

Modelling conventions:

* A directory path is a `List String` of path components stored leaf-first, so
  the parent of `c :: rest` is `rest` and the filesystem root is `[]`; the root
  is its own parent, exactly as `Path("/").parent == Path("/")` in the source.
* The filesystem is a structure `FS` giving, for each directory and file name,
  whether the file exists (`Path.exists` in the source) and the outcome of
  running the YAML loader on its contents (`yaml.safe_load`): either a parse
  error (`yaml.YAMLError`) or a parsed value.
* YAML values are modelled by `YamlValue`: null, string scalars, and mappings
  with string keys.  These are the only shapes the claims exercise; the YAML
  loader maps a YAML null to the Python value `None`.
* The external conda world is a structure `CondaWorld` recording the outcome of
  the availability probe (`conda --version`), of the environment-listing query
  (`conda env list --json`, already decoded to a list of names, with a single
  error case collapsing a nonzero exit status and a JSON decoding failure),
  and of spawning an arbitrary argv with `subprocess.run` (error = a raised
  `subprocess.SubprocessError`, ok = the returncode).
* Python exceptions become `Except` values; the `try/except` blocks of the
  source become the corresponding `match`es.
-/

namespace Autoconda

/-- YAML values as loaded by the YAML library: null, string scalars, and
mappings from string keys to values.  A mapping is an association list with
the keys assumed distinct (the loader produces a Python `dict`). -/
inductive YamlValue where
  | null
  | str (s : String)
  | map (entries : List (String × YamlValue))

/-- The filesystem as the resolver observes it.  `hasFile dir f` is
`(dir / f).exists()`; `parsed dir f` is the outcome of `yaml.safe_load` on the
contents of that file (`Except.error ()` standing for a raised
`yaml.YAMLError`). -/
structure FS where
  hasFile : List String → String → Bool
  parsed : List String → String → Except Unit YamlValue

/-- `find_environment_file` from `environment.py`: starting at `start_path`,
walk up through parents while the current directory is not its own parent,
returning the path of `environment.yml` at the first level where it exists;
after the loop, check the root directory itself; otherwise `None`.
The result is the pair of the directory and the file name making up the
returned `Path`.  With the leaf-first path representation the loop condition
`current_path != current_path.parent` is `current ≠ []`, and the recursive
call on the tail is the `current_path = current_path.parent` step. -/
def find_environment_file (fs : FS) : List String → Option (List String × String)
  | [] =>
      if fs.hasFile [] "environment.yml" then some ([], "environment.yml") else none
  | c :: rest =>
      if fs.hasFile (c :: rest) "environment.yml" then some (c :: rest, "environment.yml")
      else find_environment_file fs rest

/-- The exceptions `parse_environment_file` can raise: `FileNotFoundError`
when the file does not exist, and `yaml.YAMLError` from the loader. -/
inductive PyErr where
  | fileNotFound
  | yamlError
  deriving DecidableEq, Repr

/-- `parse_environment_file` from `environment.py`: raise `FileNotFoundError`
if the file is missing, propagate a loader error, and otherwise return the
loaded document if it is a mapping and the empty mapping if it is not
(`data if isinstance(data, dict) else {}`). -/
def parse_environment_file (fs : FS) (dir : List String) (file : String) :
    Except PyErr (List (String × YamlValue)) :=
  if fs.hasFile dir file then
    match fs.parsed dir file with
    | Except.error _ => Except.error PyErr.yamlError
    | Except.ok (YamlValue.map entries) => Except.ok entries
    | Except.ok _ => Except.ok []
  else Except.error PyErr.fileNotFound

/-- Python `dict.get`: the value stored under the key, or `none` when the key
is absent. -/
def dictGet (k : String) : List (String × YamlValue) → Option YamlValue
  | [] => none
  | (k2, v) :: rest => if k2 = k then some v else dictGet k rest

/-- `get_environment_name` from `environment.py`: `env_data.get("name")`,
whose declared type is `str | None`.  The YAML loader represents a YAML null
as the Python value `None`, which is also what `dict.get` returns for a
missing key, so a null-valued `name` and an absent `name` both come out as
`none`; a string value comes out as that string. -/
def get_environment_name (env_data : List (String × YamlValue)) : Option String :=
  match dictGet "name" env_data with
  | some (YamlValue.str s) => some s
  | _ => none

/-- `get_conda_environment_name` from `environment.py`: locate the config
file, parse it, and extract the name, with `yaml.YAMLError` and
`FileNotFoundError` both caught and turned into `None`. -/
def get_conda_environment_name (fs : FS) (start : List String) : Option String :=
  match find_environment_file fs start with
  | none => none
  | some (dir, file) =>
      match parse_environment_file fs dir file with
      | Except.error _ => none
      | Except.ok env_data => get_environment_name env_data

/-- The exception class `CondaError` from `conda.py`, carrying its message. -/
structure CondaError where
  msg : String
  deriving DecidableEq, Repr

/-- The external conda installation and process machinery, as observed by one
program run.  `available` is the outcome of the `conda --version` probe,
`envList` the decoded outcome of `conda env list --json` (error collapsing a
nonzero exit status and a JSON decoding failure), and `spawn argv` the outcome
of `subprocess.run(argv)` (error = a raised `subprocess.SubprocessError`,
ok = the child's returncode). -/
structure CondaWorld where
  available : Bool
  envList : Except Unit (List String)
  spawn : List String → Except Unit Int

/-- `check_conda_available` from `conda.py`. -/
def check_conda_available (w : CondaWorld) : Bool := w.available

/-- `get_conda_environments` from `conda.py`: raise `CondaError` when conda is
unavailable or when the listing query fails, else return the names. -/
def get_conda_environments (w : CondaWorld) : Except CondaError (List String) :=
  if check_conda_available w then
    match w.envList with
    | Except.ok envs => Except.ok envs
    | Except.error _ => Except.error ⟨"Failed to list or parse conda environments"⟩
  else Except.error ⟨"Conda is not available in the system"⟩

/-- `environment_exists` from `conda.py`: membership in the listed
environments, with any `CondaError` from the listing swallowed into `false`. -/
def environment_exists (w : CondaWorld) (env_name : String) : Bool :=
  match get_conda_environments w with
  | Except.ok envs => envs.contains env_name
  | Except.error _ => false

/-- The argv `run_in_environment` hands to `subprocess.run`:
`["conda", "run", "-n", env_name] + command`. -/
def run_in_environment_argv (env_name : String) (command : List String) : List String :=
  ["conda", "run", "-n", env_name] ++ command

/-- `run_in_environment` from `conda.py`: raise `CondaError` when conda is
unavailable or the environment does not exist; otherwise spawn the conda
invocation and return its exit code, converting a `SubprocessError` into a
`CondaError`. -/
def run_in_environment (w : CondaWorld) (env_name : String) (command : List String) :
    Except CondaError Int :=
  if check_conda_available w then
    if environment_exists w env_name then
      match w.spawn (run_in_environment_argv env_name command) with
      | Except.ok rc => Except.ok rc
      | Except.error _ =>
          Except.error ⟨"Failed to run command in environment " ++ env_name⟩
    else Except.error ⟨"Environment " ++ env_name ++ " does not exist"⟩
  else Except.error ⟨"Conda is not available in the system"⟩

/-- The argv `activate_environment` hands to `subprocess.run`:
`["conda", "run", "--name", env_name, "--no-capture-output", shell_name]`. -/
def activate_environment_argv (env_name : String) (shell_name : String) : List String :=
  ["conda", "run", "--name", env_name, "--no-capture-output", shell_name]

/-- `activate_environment` from `conda.py`: the same availability and
existence checks as `run_in_environment`, then spawn an interactive shell
(`shell_name` is the basename of the `SHELL` environment variable) inside the
environment, discarding its exit status. -/
def activate_environment (w : CondaWorld) (shell_name : String) (env_name : String) :
    Except CondaError Unit :=
  if check_conda_available w then
    if environment_exists w env_name then
      match w.spawn (activate_environment_argv env_name shell_name) with
      | Except.ok _ => Except.ok ()
      | Except.error _ =>
          Except.error ⟨"Failed to activate environment " ++ env_name⟩
    else Except.error ⟨"Environment " ++ env_name ++ " does not exist"⟩
  else Except.error ⟨"Conda is not available in the system"⟩

/-- The externally observable behaviour of one `cmd_run` invocation: the exit
status passed to `sys.exit`, whether name resolution
(`get_conda_environment_name`) was performed, and the list of dispatcher
invocations (`run_in_environment`, with its environment name and command) —
the only site on this code path that reaches `subprocess.run`. -/
structure RunTrace where
  exitCode : Int
  resolveCalled : Bool
  dispatched : List (String × List String)
  deriving DecidableEq, Repr

/-- `cmd_run` from `cli.py`: an empty command vector exits with status 2
before anything else; a failed name resolution exits with status 1; otherwise
the dispatcher runs the command and its exit code is passed to `sys.exit`,
with a raised `CondaError` caught and turned into exit status 1. -/
def cmd_run (w : CondaWorld) (fs : FS) (path : List String) (command : List String) :
    RunTrace :=
  if command.isEmpty then
    { exitCode := 2, resolveCalled := false, dispatched := [] }
  else
    match get_conda_environment_name fs path with
    | none => { exitCode := 1, resolveCalled := true, dispatched := [] }
    | some env_name =>
        match run_in_environment w env_name command with
        | Except.ok rc =>
            { exitCode := rc, resolveCalled := true, dispatched := [(env_name, command)] }
        | Except.error _ =>
            { exitCode := 1, resolveCalled := true, dispatched := [(env_name, command)] }

/-! Concrete fixtures used by the closed instances below. -/

/-- A filesystem with no files at all. -/
def fsNone : FS where
  hasFile := fun _ _ => false
  parsed := fun _ _ => Except.error ()

/-- A filesystem whose root holds an `environment.yml` naming the environment
`demo`. -/
def fsDemo : FS where
  hasFile := fun dir file => dir == ([] : List String) && file == "environment.yml"
  parsed := fun _ _ => Except.ok (YamlValue.map [("name", YamlValue.str "demo")])

/-- A filesystem whose root holds only an `environment.yaml` (no
`environment.yml`), naming the environment `test-env`. -/
def fsYamlOnly : FS where
  hasFile := fun dir file => dir == ([] : List String) && file == "environment.yaml"
  parsed := fun _ _ => Except.ok (YamlValue.map [("name", YamlValue.str "test-env")])

/-- A filesystem whose root holds an `environment.yml` with malformed YAML
contents. -/
def fsBadYaml : FS where
  hasFile := fun dir file => dir == ([] : List String) && file == "environment.yml"
  parsed := fun _ _ => Except.error ()

/-- A filesystem whose root holds an `environment.yml` whose `name` key is
bound to YAML null. -/
def fsNullName : FS where
  hasFile := fun dir file => dir == ([] : List String) && file == "environment.yml"
  parsed := fun _ _ => Except.ok (YamlValue.map [("name", YamlValue.null)])

/-- A conda world where the tool is available, exactly the environment `demo`
exists, and the two dispatcher argvs used below succeed with distinct exit
codes. -/
def wRun : CondaWorld where
  available := true
  envList := Except.ok ["demo"]
  spawn := fun argv =>
    if argv == ["conda", "run", "-n", "demo", "echo", "hi there"] then Except.ok 5
    else if argv == ["conda", "run", "-n", "demo", "python", "script.py"] then Except.ok 3
    else Except.error ()

/-- A conda world where the environment `env` exists and the two candidate
invocation forms yield different exit codes: the short-flag form exits 0 and
the long-flag form with `--no-capture-output` exits 7. -/
def wC1 : CondaWorld where
  available := true
  envList := Except.ok ["env"]
  spawn := fun argv =>
    if argv == ["conda", "run", "-n", "env", "echo"] then Except.ok 0
    else if argv == ["conda", "run", "--name", "env", "--no-capture-output", "echo"] then
      Except.ok 7
    else Except.error ()

/-- A conda world where the tool is available and `demo` exists but every
spawn raises `SubprocessError`. -/
def wFail : CondaWorld where
  available := true
  envList := Except.ok ["demo"]
  spawn := fun _ => Except.error ()

/-! ## Claims -/

/-- Claim C1, counterexample: the claim says the dispatcher invokes
`conda run --name e --no-capture-output c...` and returns that invocation's
exit status.  In the world `wC1` that argv exits with status 7, yet
`run_in_environment` returns 0 — the code actually spawns
`conda run -n e c...` (no `--no-capture-output`, short name flag). -/
theorem C1_claim_false :
    run_in_environment wC1 "env" ["echo"] = Except.ok 0 ∧
    wC1.spawn (["conda", "run", "--name", "env", "--no-capture-output"] ++ ["echo"]) =
      Except.ok 7 ∧
    run_in_environment wC1 "env" ["echo"] ≠ Except.ok 7 := by
  refine ⟨rfl, rfl, ?_⟩
  intro h
  exact absurd (Except.ok.inj h) (by decide)

/-- Claim C1 (amended): for every non-empty environment name `e` and non-empty
command vector `c`, when conda is available and the environment exists, the
dispatcher builds the invocation as the tool name, `run`, the short
name-scoping flag `-n` with `e`, and then the elements of `c` unmodified and
in order (argv = `conda run -n e c...`, with no `--no-capture-output` flag),
and its result is exactly the outcome of spawning that argv: the exit code on
success, a `CondaError` on a spawn failure.  No shell interpretation or
re-tokenization of `c` occurs. -/
theorem C1_dispatch_argv (w : CondaWorld) (e : String) (c : List String)
    (_he : e ≠ "") (_hc : c ≠ [])
    (havail : check_conda_available w = true)
    (hex : environment_exists w e = true) :
    run_in_environment w e c =
      match w.spawn (["conda", "run", "-n", e] ++ c) with
      | Except.ok rc => Except.ok rc
      | Except.error _ =>
          Except.error ⟨"Failed to run command in environment " ++ e⟩ := by
  simp only [run_in_environment, run_in_environment_argv, havail, hex, if_true]

/-- Claim C1 witness: in the world `wRun`, dispatching
`["echo", "hi there"]` into environment `demo` returns exactly the exit code
5 produced by spawning `["conda", "run", "-n", "demo", "echo", "hi there"]`. -/
theorem C1_dispatch_argv_witness :
    run_in_environment wRun "demo" ["echo", "hi there"] = Except.ok 5 := by
  rw [C1_dispatch_argv wRun "demo" ["echo", "hi there"] (by decide) (by decide) rfl rfl]
  rfl

/-- Claim C2: the claim (and the repository's own tests
`test_find_environment_yaml_file` and
`test_get_conda_environment_name_from_yaml`) say a directory whose only
config file is `environment.yaml` is a match; the code never tests for
`environment.yaml`, so on a filesystem whose root holds only
`environment.yaml` the locator returns `None` and resolution fails. -/
theorem C2_yaml_fallback_missing :
    fsYamlOnly.hasFile [] "environment.yaml" = true ∧
    fsYamlOnly.hasFile [] "environment.yml" = false ∧
    find_environment_file fsYamlOnly [] = none ∧
    get_conda_environment_name fsYamlOnly [] = none :=
  ⟨rfl, rfl, rfl, rfl⟩

/-- Claim C3: the locator returns the config file of the closest directory to
the start (the start itself or the nearest ancestor) that contains one; the
walk visits exactly the start and its ancestors (its suffixes in the
leaf-first encoding, down to and including the root, which is checked after
the loop stops at the directory that is its own parent — termination being
witnessed by the total structural recursion); and when no visited directory
contains a config file the locator returns `none` and
`get_conda_environment_name` returns `none`. -/
theorem C3_closest_match_and_not_found (fs : FS) (start : List String) :
    (∀ dir file, find_environment_file fs start = some (dir, file) →
      file = "environment.yml" ∧ dir <:+ start ∧
      fs.hasFile dir "environment.yml" = true ∧
      ∀ d, d <:+ start → dir.length < d.length →
        fs.hasFile d "environment.yml" = false) ∧
    ((∀ d, d <:+ start → fs.hasFile d "environment.yml" = false) →
      find_environment_file fs start = none ∧
      get_conda_environment_name fs start = none) := by
  induction start with
  | nil =>
    constructor
    · intro dir file h
      by_cases hy : fs.hasFile [] "environment.yml" = true
      · simp only [find_environment_file] at h
        rw [if_pos hy] at h
        simp only [Option.some.injEq, Prod.mk.injEq] at h
        obtain ⟨hd, hf⟩ := h
        subst hd
        subst hf
        refine ⟨rfl, List.suffix_refl _, hy, ?_⟩
        intro d hd2 hlen
        have := List.suffix_nil.mp hd2
        subst this
        exact absurd hlen (lt_irrefl _)
      · simp only [find_environment_file] at h
        rw [if_neg hy] at h
        exact Option.noConfusion h
    · intro hall
      have hy : fs.hasFile [] "environment.yml" = false := hall [] (List.suffix_refl _)
      have hfind : find_environment_file fs [] = none := by
        simp only [find_environment_file]
        rw [if_neg (by simp [hy])]
      exact ⟨hfind, by simp [get_conda_environment_name, hfind]⟩
  | cons c rest ih =>
    obtain ⟨ih1, ih2⟩ := ih
    constructor
    · intro dir file h
      by_cases hy : fs.hasFile (c :: rest) "environment.yml" = true
      · simp only [find_environment_file] at h
        rw [if_pos hy] at h
        simp only [Option.some.injEq, Prod.mk.injEq] at h
        obtain ⟨hd, hf⟩ := h
        subst hd
        subst hf
        refine ⟨rfl, List.suffix_refl _, hy, ?_⟩
        intro d hd2 hlen
        have := hd2.length_le
        omega
      · simp only [find_environment_file] at h
        rw [if_neg hy] at h
        obtain ⟨h1, h2, h3, h4⟩ := ih1 dir file h
        refine ⟨h1, h2.trans (List.suffix_cons c rest), h3, ?_⟩
        intro d hd2 hlen
        rcases List.suffix_cons_iff.mp hd2 with hdc | hd3
        · subst hdc
          exact Bool.eq_false_iff.mpr hy
        · exact h4 d hd3 hlen
    · intro hall
      have hy : fs.hasFile (c :: rest) "environment.yml" = false :=
        hall (c :: rest) (List.suffix_refl _)
      have hrest := ih2 (fun d hd => hall d (hd.trans (List.suffix_cons c rest)))
      have hfind : find_environment_file fs (c :: rest) = none := by
        simp only [find_environment_file]
        rw [if_neg (by simp [hy])]
        exact hrest.1
      exact ⟨hfind, by simp [get_conda_environment_name, hfind]⟩

/-- Claim C3 witness: on a filesystem with no files at all, starting from a
one-component directory, the locator returns `none` and resolution returns
`none`. -/
theorem C3_witness :
    find_environment_file fsNone ["a"] = none ∧
    get_conda_environment_name fsNone ["a"] = none :=
  (C3_closest_match_and_not_found fsNone ["a"]).2 (fun _ _ => rfl)

/-- Claim C4: whenever the located config file has malformed YAML contents,
or its top-level document is not a mapping, or its mapping lacks a `name`
key, `get_conda_environment_name` returns `None`.  (In the embedding the
function is total: the `yaml.YAMLError` and `FileNotFoundError` raised by
parsing are caught inside it, so no exception reaches the caller.) -/
theorem C4_resolution_failures_swallowed (fs : FS) (start dir : List String) (file : String)
    (hfind : find_environment_file fs start = some (dir, file))
    (h : fs.parsed dir file = Except.error () ∨
      (∃ v, fs.parsed dir file = Except.ok v ∧ ∀ es, v ≠ YamlValue.map es) ∨
      (∃ es, fs.parsed dir file = Except.ok (YamlValue.map es) ∧ dictGet "name" es = none)) :
    get_conda_environment_name fs start = none := by
  unfold get_conda_environment_name
  rw [hfind]
  by_cases hex : fs.hasFile dir file = true
  · rcases h with h | ⟨v, hv, hnm⟩ | ⟨es, hes, hn⟩
    · simp [parse_environment_file, hex, h]
    · cases v with
      | null => simp [parse_environment_file, hex, hv, get_environment_name, dictGet]
      | str s => simp [parse_environment_file, hex, hv, get_environment_name, dictGet]
      | map es => exact absurd rfl (hnm es)
    · simp [parse_environment_file, hex, hes, get_environment_name, hn]
  · have hex2 : fs.hasFile dir file = false := Bool.eq_false_iff.mpr hex
    simp [parse_environment_file, hex2]

/-- Claim C4 witness: on a filesystem whose root `environment.yml` has
malformed YAML contents, resolution returns `None`. -/
theorem C4_witness : get_conda_environment_name fsBadYaml [] = none :=
  C4_resolution_failures_swallowed fsBadYaml [] [] "environment.yml" rfl (Or.inl rfl)

/-- Claim C5: on a non-empty command vector, whenever environment-name
resolution yields `None`, the run command exits with status 1 and the
dispatcher is never invoked — and since `run_in_environment` is the only
site on this code path reaching `subprocess.run`, no subprocess is launched
without a resolved environment name. -/
theorem C5_no_dispatch_without_name (w : CondaWorld) (fs : FS)
    (path command : List String)
    (hne : command.isEmpty = false)
    (hres : get_conda_environment_name fs path = none) :
    (cmd_run w fs path command).exitCode = 1 ∧
    (cmd_run w fs path command).dispatched = [] := by
  simp [cmd_run, hne, hres]

/-- Claim C5 witness: with no config file anywhere, running `["echo"]` exits
with status 1 and dispatches nothing. -/
theorem C5_witness :
    (cmd_run wRun fsNone ["a"] ["echo"]).exitCode = 1 ∧
    (cmd_run wRun fsNone ["a"] ["echo"]).dispatched = [] :=
  C5_no_dispatch_without_name wRun fsNone ["a"] ["echo"] rfl rfl

/-- Claim C6: for every world and filesystem — in particular with a valid
config file present — an empty command vector makes the run command exit with
status 2 with no resolution performed and nothing dispatched (hence no
subprocess spawned). -/
theorem C6_empty_command_usage_error (w : CondaWorld) (fs : FS) (path : List String) :
    cmd_run w fs path [] =
      { exitCode := 2, resolveCalled := false, dispatched := [] } := rfl

/-- Claim C6 witness: with a valid config file present, the empty command
vector exits with status 2, resolution not performed, nothing dispatched. -/
theorem C6_witness :
    cmd_run wRun fsDemo [] [] =
      { exitCode := 2, resolveCalled := false, dispatched := [] } :=
  C6_empty_command_usage_error wRun fsDemo []

/-- Claim C7: when the spawned conda invocation completes with exit status
`rc`, the dispatcher returns `rc`, and the run command forwards it unchanged
as the program's own exit code. -/
theorem C7_exit_code_forwarded (w : CondaWorld) (fs : FS)
    (path command : List String) (e : String) (rc : Int)
    (hne : command.isEmpty = false)
    (hres : get_conda_environment_name fs path = some e)
    (havail : check_conda_available w = true)
    (hex : environment_exists w e = true)
    (hspawn : w.spawn (["conda", "run", "-n", e] ++ command) = Except.ok rc) :
    run_in_environment w e command = Except.ok rc ∧
    (cmd_run w fs path command).exitCode = rc := by
  have hspawn2 : w.spawn ("conda" :: "run" :: "-n" :: e :: command) = Except.ok rc := hspawn
  have h1 : run_in_environment w e command = Except.ok rc := by
    simp [run_in_environment, run_in_environment_argv, havail, hex, hspawn2]
  exact ⟨h1, by simp [cmd_run, hne, hres, h1]⟩

/-- Claim C7 witness: the spawned command exits with status 3 and the program
exits with status 3. -/
theorem C7_witness :
    run_in_environment wRun "demo" ["python", "script.py"] = Except.ok 3 ∧
    (cmd_run wRun fsDemo [] ["python", "script.py"]).exitCode = 3 :=
  C7_exit_code_forwarded wRun fsDemo [] ["python", "script.py"] "demo" 3 rfl rfl rfl rfl rfl

/-- Claim C8: when the external tool cannot be spawned — the availability
probe fails (binary not on the search path), or the conda invocation itself
raises `SubprocessError` — the dispatcher returns a `CondaError` rather than
an exit code, and the run command exits with status 1.  The error value is
distinct from every `Except.ok rc` of a successfully spawned command. -/
theorem C8_spawn_failure_distinct (w : CondaWorld) (fs : FS)
    (path command : List String) (e : String)
    (hne : command.isEmpty = false)
    (hres : get_conda_environment_name fs path = some e)
    (hfail : check_conda_available w = false ∨
      (environment_exists w e = true ∧
        w.spawn (["conda", "run", "-n", e] ++ command) = Except.error ())) :
    (∃ msg, run_in_environment w e command = Except.error msg) ∧
    (cmd_run w fs path command).exitCode = 1 := by
  have h1 : ∃ msg, run_in_environment w e command = Except.error msg := by
    rcases hfail with h | ⟨hex, hsp⟩
    · exact ⟨⟨"Conda is not available in the system"⟩, by simp [run_in_environment, h]⟩
    · have hsp2 : w.spawn ("conda" :: "run" :: "-n" :: e :: command) = Except.error () := hsp
      by_cases hav : check_conda_available w = true
      · exact ⟨⟨"Failed to run command in environment " ++ e⟩,
          by simp [run_in_environment, run_in_environment_argv, hav, hex, hsp2]⟩
      · exact ⟨⟨"Conda is not available in the system"⟩,
          by simp [run_in_environment, Bool.eq_false_iff.mpr hav]⟩
  obtain ⟨msg, hmsg⟩ := h1
  exact ⟨⟨msg, hmsg⟩, by simp [cmd_run, hne, hres, hmsg]⟩

/-- Claim C8 witness: in a world where every spawn fails, running `["echo"]`
yields a `CondaError` from the dispatcher and program exit status 1. -/
theorem C8_witness :
    (∃ msg, run_in_environment wFail "demo" ["echo"] = Except.error msg) ∧
    (cmd_run wFail fsDemo [] ["echo"]).exitCode = 1 :=
  C8_spawn_failure_distinct wFail fsDemo [] ["echo"] "demo" rfl rfl (Or.inr ⟨rfl, rfl⟩)

/-- Claim C9: when the environment name does not appear in the external
tool's environment listing, both `run_in_environment` and
`activate_environment` return a `CondaError`, and both results are
independent of the world's spawn behaviour — the error is raised before any
attempt to spawn the user's command. -/
theorem environment_exists_false_of_not_mem (w : CondaWorld) (e : String) (l : List String)
    (hl : w.envList = Except.ok l) (hmem : e ∉ l) : environment_exists w e = false := by
  unfold environment_exists get_conda_environments
  by_cases hav : check_conda_available w = true
  · rw [if_pos hav, hl]
    simp [hmem]
  · rw [if_neg hav]

theorem run_in_environment_error_of_not_exists (w : CondaWorld) (e : String)
    (c : List String) (hex : environment_exists w e = false) :
    run_in_environment w e c =
      if check_conda_available w then
        Except.error ⟨"Environment " ++ e ++ " does not exist"⟩
      else Except.error ⟨"Conda is not available in the system"⟩ := by
  unfold run_in_environment
  by_cases hav : check_conda_available w = true
  · rw [if_pos hav, if_pos hav, hex]
    rfl
  · rw [if_neg hav, if_neg hav]

theorem activate_environment_error_of_not_exists (w : CondaWorld) (shell e : String)
    (hex : environment_exists w e = false) :
    activate_environment w shell e =
      if check_conda_available w then
        Except.error ⟨"Environment " ++ e ++ " does not exist"⟩
      else Except.error ⟨"Conda is not available in the system"⟩ := by
  unfold activate_environment
  by_cases hav : check_conda_available w = true
  · rw [if_pos hav, if_pos hav, hex]
    rfl
  · rw [if_neg hav, if_neg hav]

/-- Claim C9: when the environment name does not appear in the external
tool's environment listing, both `run_in_environment` and
`activate_environment` return a `CondaError`, and both results are
independent of the world's spawn behaviour — the error is raised before any
attempt to spawn the user's command. -/
theorem C9_existence_precondition (w : CondaWorld) (e shell : String)
    (command : List String) (l : List String)
    (hl : w.envList = Except.ok l) (hmem : e ∉ l) :
    (∃ m, run_in_environment w e command = Except.error m) ∧
    (∃ m, activate_environment w shell e = Except.error m) ∧
    (∀ sp, run_in_environment { w with spawn := sp } e command =
        run_in_environment w e command ∧
      activate_environment { w with spawn := sp } shell e =
        activate_environment w shell e) := by
  have hex : ∀ sp, environment_exists { w with spawn := sp } e = false := fun sp =>
    environment_exists_false_of_not_mem { w with spawn := sp } e l hl hmem
  have hex0 : environment_exists w e = false :=
    environment_exists_false_of_not_mem w e l hl hmem
  refine ⟨?_, ?_, ?_⟩
  · rw [run_in_environment_error_of_not_exists w e command hex0]
    by_cases hav : check_conda_available w = true
    · exact ⟨⟨"Environment " ++ e ++ " does not exist"⟩, if_pos hav⟩
    · exact ⟨⟨"Conda is not available in the system"⟩, if_neg hav⟩
  · rw [activate_environment_error_of_not_exists w shell e hex0]
    by_cases hav : check_conda_available w = true
    · exact ⟨⟨"Environment " ++ e ++ " does not exist"⟩, if_pos hav⟩
    · exact ⟨⟨"Conda is not available in the system"⟩, if_neg hav⟩
  · intro sp
    constructor
    · rw [run_in_environment_error_of_not_exists { w with spawn := sp } e command (hex sp),
        run_in_environment_error_of_not_exists w e command hex0]
      rfl
    · rw [activate_environment_error_of_not_exists { w with spawn := sp } shell e (hex sp),
        activate_environment_error_of_not_exists w shell e hex0]
      rfl

/-- Claim C9 witness: the environment `ghost` is not in `wRun`'s listing, so
both dispatcher entry points reject it with a `CondaError`, independently of
spawn behaviour. -/
theorem C9_witness :
    (∃ m, run_in_environment wRun "ghost" ["echo"] = Except.error m) ∧
    (∃ m, activate_environment wRun "bash" "ghost" = Except.error m) ∧
    (∀ sp, run_in_environment { wRun with spawn := sp } "ghost" ["echo"] =
        run_in_environment wRun "ghost" ["echo"] ∧
      activate_environment { wRun with spawn := sp } "bash" "ghost" =
        activate_environment wRun "bash" "ghost") :=
  C9_existence_precondition wRun "ghost" "bash" ["echo"] ["demo"] rfl (by decide)

/-- Claim C10: when the located config file's mapping binds `name` to YAML
null, resolution returns `None`, and the extracted name is the same as for
any mapping with no `name` key at all — a null name is indistinguishable at
the public interface from an absent one. -/
theorem C10_null_name (fs : FS) (start dir : List String) (file : String)
    (es : List (String × YamlValue))
    (hfind : find_environment_file fs start = some (dir, file))
    (hex : fs.hasFile dir file = true)
    (hparse : fs.parsed dir file = Except.ok (YamlValue.map es))
    (hname : dictGet "name" es = some YamlValue.null) :
    get_conda_environment_name fs start = none ∧
    ∀ es2, dictGet "name" es2 = none → get_environment_name es = get_environment_name es2 := by
  constructor
  · simp [get_conda_environment_name, hfind, parse_environment_file, hex, hparse,
      get_environment_name, hname]
  · intro es2 h2
    simp [get_environment_name, hname, h2]

/-- Claim C10 witness: a root `environment.yml` whose `name` key is bound to
YAML null resolves to `None`. -/
theorem C10_witness : get_conda_environment_name fsNullName [] = none :=
  (C10_null_name fsNullName [] [] "environment.yml" [("name", YamlValue.null)]
    rfl rfl rfl rfl).1

end Autoconda
